import Mathlib

/-!
Verification of the speech-audio delivery pipeline of
`src/services/geminiService.ts` (the TTS section, lines 212-361).

The subsystem is shallow-embedded as follows.

* The PCM decode performed inside `fetchAndDecodeTTS` (lines 279-297) is the
  pure function `decodePCMBuffer` over the base64-decoded byte payload.
  Samples are modelled as rationals: every value `i / 32768` with
  `-32768 ≤ i ≤ 32767` is exactly representable as a binary floating point
  number, so `ℚ` is an exact model of the `Float32` arithmetic the source
  performs at line 296.

* The mutable module state (`ttsCache`, the `AudioContext` singleton, the
  set of started `fetchAndDecodeTTS` computations) is the explicit state
  record `St`.  Each started `fetchAndDecodeTTS` computation becomes a
  `PInfo` entry; the network response for the `k`-th synthesis request is
  given by an oracle `pipe : Pipe`.  JavaScript's single-threaded event
  loop makes the whole body of `getTTSBuffer` atomic (it contains no
  `await`), which is why `getTTSBuffer` is a single step; the later
  settlement of a stored promise (running the `.catch` handler of lines
  311-315 on failure) is the separate step `awaitTTS`.

* Exceptions and promise rejection are modelled with `Except String`:
  `rawOutcome` is the settlement of a `fetchAndDecodeTTS` promise before
  the `.catch` of line 311, and `awaitTTS` returns what a caller awaiting
  the cached (caught) promise observes.
-/

namespace TTS

/-- The decoded audio block produced by `fetchAndDecodeTTS`
(`ctx.createBuffer(1, byteArray.length / 2, 24000)` filled at line 296 with
`dataInt16[i] / 32768.0`). -/
structure SampleBuffer where
  numberOfChannels : Nat
  sampleRate : Nat
  data : List ℚ
deriving DecidableEq, Repr

/-- One signed 16-bit little-endian sample read from two bytes, exactly as the
`Int16Array` view over the `Uint8Array` does at line 292 (bytes are stored
modulo 256, the low byte comes first, and values at or above 32768 wrap to
negative). -/
def int16OfBytes (lo hi : Nat) : Int :=
  if (lo % 256 + 256 * (hi % 256)) % 65536 < 32768 then
    ((lo % 256 + 256 * (hi % 256)) % 65536 : Int)
  else
    ((lo % 256 + 256 * (hi % 256)) % 65536 : Int) - 65536

/-- Consecutive byte pairs of the payload, in order; a dangling final byte
pairs with nothing and is dropped. -/
def pairUp : List Nat → List (Nat × Nat)
  | lo :: hi :: rest => (lo, hi) :: pairUp rest
  | _ => []

/-- Lines 282-285: `if (byteArray.length % 2 !== 0) byteArray =
byteArray.slice(0, byteArray.length - 1)`. -/
def trimOdd (bytes : List Nat) : List Nat :=
  if bytes.length % 2 ≠ 0 then bytes.take (bytes.length - 1) else bytes

/-- Lines 281-297 of `fetchAndDecodeTTS`: trim a dangling odd byte, view the
rest as little-endian `Int16` samples, and fill a mono 24 kHz buffer with
`sample / 32768.0`. -/
def decodePCMBuffer (bytes : List Nat) : SampleBuffer :=
  { numberOfChannels := 1
    sampleRate := 24000
    data := (pairUp (trimOdd bytes)).map (fun p => ((int16OfBytes p.1 p.2 : ℚ) / 32768)) }

/-- How one `fetchAndDecodeTTS` computation will settle.  `nullNow`: the empty
text guard of line 254 fired, so the computation resolves `null` without any
network request.  `net k`: the computation issued the `k`-th synthesis request
of the session and settles with that request's outcome. -/
inductive PKind where
  | nullNow
  | net (k : Nat)
deriving DecidableEq, Repr

/-- A started `fetchAndDecodeTTS` computation as stored in `ttsCache`: the
cache key captured by the `.catch` closure of lines 311-315, and how the
computation settles. -/
structure PInfo where
  key : String
  kind : PKind
deriving DecidableEq, Repr

/-- The network-level outcome of one synthesis request: the request (or the
base64 decode of its payload) throws, or the response carries no audio
payload (line 275), or it carries the byte payload that `decodeBase64`
produced. -/
inductive NetResp where
  | fail (e : String)
  | noAudio
  | audio (bytes : List Nat)
deriving DecidableEq, Repr

/-- Oracle fixing the outcome of the `k`-th synthesis request issued during
the session. -/
def Pipe : Type := Nat → NetResp

/-- The module-level mutable state of `geminiService.ts`'s TTS section plus
the observable event history:
`cache` is `ttsCache` (key to index of the stored promise), `promises` the
computations started so far, `nextNet` the number of synthesis requests
issued so far, `settledPids` the promises whose settlement (including the
`.catch` handler of lines 311-315) has already run, `deletes` every
`ttsCache.delete` call in order, `failures` the number of failed
computations observed by the `.catch` handler, `resumes` the number of
`resumeAudioContext` device touches, and `plays` every buffer handed to
`playBuffer`. -/
structure St where
  cache : List (String × Nat)
  promises : List PInfo
  nextNet : Nat
  settledPids : List Nat
  deletes : List String
  failures : Nat
  resumes : Nat
  plays : List SampleBuffer
deriving DecidableEq, Repr

/-- The state at module load: empty cache, no requests, untouched device. -/
def st0 : St := ⟨[], [], 0, [], [], 0, 0, []⟩

/-- `Map.get` over the association-list model of `ttsCache`. -/
def lookupKey : List (String × Nat) → String → Option Nat
  | [], _ => none
  | (k', v) :: rest, k => if k' = k then some v else lookupKey rest k

/-- `Map.delete` over the association-list model of `ttsCache`. -/
def removeKey (c : List (String × Nat)) (k : String) : List (String × Nat) :=
  c.filter (fun p => p.1 ≠ k)

/-- `Map.set` over the association-list model of `ttsCache`. -/
def setKey (c : List (String × Nat)) (k : String) (v : Nat) : List (String × Nat) :=
  (k, v) :: removeKey c k

/-- Lines 304 and 343: the cache key is the exact string `lang:text`. -/
def cacheKeyOf (text lang : String) : String := lang ++ ":" ++ text

/-- The test `!text || !text.trim()` of line 254: true exactly when every
character of `text` is whitespace (in particular for the empty string),
i.e. when `text` trims to the empty string. -/
def isBlank (s : String) : Bool := s.data.all Char.isWhitespace

/-- The synchronous prefix of `fetchAndDecodeTTS` (lines 252-271): either the
empty-text guard of line 254 fires and the computation will resolve `null`
with no request, or the synthesis request is issued now, consuming the next
request index. -/
def fetchAndDecodeTTSStart (σ : St) (text : String) : St × PKind :=
  if isBlank text then (σ, PKind.nullNow)
  else ({ σ with nextNet := σ.nextNet + 1 }, PKind.net σ.nextNet)

/-- Lines 303-319, `getTTSBuffer`: on a cache hit return the stored promise;
on a miss start `fetchAndDecodeTTS` and store the (caught) promise under the
key before returning it.  The body contains no `await`, so the whole step is
atomic with respect to the event loop. -/
def getTTSBuffer (σ : St) (text lang : String) : St × Nat :=
  match lookupKey σ.cache (cacheKeyOf text lang) with
  | some pid => (σ, pid)
  | none =>
    let s := fetchAndDecodeTTSStart σ text
    let pid := s.1.promises.length
    ({ s.1 with
        promises := s.1.promises ++ [⟨cacheKeyOf text lang, s.2⟩]
        cache := setKey s.1.cache (cacheKeyOf text lang) pid }, pid)

/-- How a `fetchAndDecodeTTS` promise settles before the `.catch` of line
311: the empty-text branch resolves `null`; a network invocation either
rejects with the transport error, rejects with
`"No audio data received from Gemini"` (line 276), or resolves with the
decoded buffer. -/
def rawOutcome (pipe : Pipe) (p : PInfo) : Except String (Option SampleBuffer) :=
  match p.kind with
  | PKind.nullNow => Except.ok none
  | PKind.net k =>
    match pipe k with
    | NetResp.fail e => Except.error e
    | NetResp.noAudio => Except.error "No audio data received from Gemini"
    | NetResp.audio bytes => Except.ok (some (decodePCMBuffer bytes))

/-- The `.catch` of lines 311-315 at the level of settled values: a rejection
becomes a resolution with `null`. -/
def catchToNull (x : Except String (Option SampleBuffer)) :
    Except String (Option SampleBuffer) :=
  match x with
  | Except.error _ => Except.ok none
  | Except.ok v => Except.ok v

/-- Awaiting the promise stored at index `pid`.  If it has not settled yet,
its settlement runs now: on rejection the `.catch` handler of lines 311-315
logs, calls `ttsCache.delete(cacheKey)` and resolves `null`.  If it already
settled, the caller just observes the caught value.  The second component is
what `await` yields to the caller (an `Except.error` would mean the awaited
promise rejected). -/
def awaitTTS (pipe : Pipe) (σ : St) (pid : Nat) :
    St × Except String (Option SampleBuffer) :=
  match σ.promises[pid]? with
  | none => (σ, Except.ok none)
  | some p =>
    if pid ∈ σ.settledPids then (σ, catchToNull (rawOutcome pipe p))
    else
      match rawOutcome pipe p with
      | Except.ok v =>
        ({ σ with settledPids := pid :: σ.settledPids }, Except.ok v)
      | Except.error _ =>
        ({ σ with
            settledPids := pid :: σ.settledPids
            deletes := σ.deletes ++ [p.key]
            cache := removeKey σ.cache p.key
            failures := σ.failures + 1 }, Except.ok none)

/-- Lines 228-238: touch the device, resuming it if suspended; resume
failures are swallowed. -/
def resumeAudioContext (σ : St) : St := { σ with resumes := σ.resumes + 1 }

/-- Lines 322-330: submit the buffer to the device and wait for `onended`;
the promise only ever resolves. -/
def playBuffer (σ : St) (buf : SampleBuffer) : St :=
  { σ with plays := σ.plays ++ [buf] }

/-- Lines 333-355, `playTTS`: return at once on empty text; otherwise resume
the device, await the cached-or-fresh buffer, on a `null` outcome delete the
key and retry exactly once, then play the buffer if one was obtained. -/
def playTTS (pipe : Pipe) (σ : St) (text lang : String) : Except String St :=
  if text = "" then Except.ok σ
  else
    let r := getTTSBuffer (resumeAudioContext σ) text lang
    let a := awaitTTS pipe r.1 r.2
    match a.2 with
    | Except.error e => Except.error e
    | Except.ok (some buf) => Except.ok (playBuffer a.1 buf)
    | Except.ok none =>
      let σ4 := { a.1 with
                   deletes := a.1.deletes ++ [cacheKeyOf text lang]
                   cache := removeKey a.1.cache (cacheKeyOf text lang) }
      let r2 := getTTSBuffer σ4 text lang
      let a2 := awaitTTS pipe r2.1 r2.2
      match a2.2 with
      | Except.error e => Except.error e
      | Except.ok (some buf) => Except.ok (playBuffer a2.1 buf)
      | Except.ok none => Except.ok a2.1

/-- Lines 358-361, `prefetchTTS`: return at once on empty text; otherwise
start (or join) the cached computation and return immediately, without
awaiting it.  The second component is the promise the fire-and-forget
`.catch` is attached to, if any. -/
def prefetchTTS (σ : St) (text lang : String) : St × Option Nat :=
  if text = "" then (σ, none)
  else
    let r := getTTSBuffer σ text lang
    (r.1, some r.2)

/-- A `prefetchTTS` call followed by the later settlement of the computation
it started or joined.  An `Except.error` in the second component would mean
the fire-and-forget promise rejected past `getTTSBuffer`'s internal catch,
reaching the outer catch of line 360. -/
def prefetchAndSettle (pipe : Pipe) (σ : St) (text lang : String) :
    St × Except String Unit :=
  if text = "" then (σ, Except.ok ())
  else
    let r := getTTSBuffer σ text lang
    let a := awaitTTS pipe r.1 r.2
    match a.2 with
    | Except.error e => (a.1, Except.error e)
    | Except.ok _ => (a.1, Except.ok ())

/-- `n` callers invoking `getTTSBuffer` for the same `(text, lang)` with no
intervening settlement or eviction (the window in which the entry stays
live): one atomic `getTTSBuffer` step per caller, threading the state and
collecting the promise each caller got.  Both `playTTS` and `prefetchTTS`
enter the cache through exactly such a step. -/
def getMany (text lang : String) : St → Nat → St × List Nat
  | σ, 0 => (σ, [])
  | σ, n + 1 =>
    let r := getTTSBuffer σ text lang
    let rest := getMany text lang r.1 n
    (rest.1, r.2 :: rest.2)

/-- Observer for the result of `playTTS`: `some` final state when the call
completed normally, `none` when it threw. -/
def obsSt : Except String St → Option St
  | Except.ok σ => some σ
  | Except.error _ => none

/-- States whose settled set only mentions promises that exist.  Holds for
every state reachable from `st0`. -/
def WFst (σ : St) : Prop := ∀ q ∈ σ.settledPids, q < σ.promises.length

/-- A pipeline whose first synthesis request fails and whose later requests
succeed with an empty payload. -/
def pipeRetry : Pipe := fun k => if k = 0 then NetResp.fail "network" else NetResp.audio []

/-- A pipeline all of whose synthesis requests fail. -/
def pipeFailAll : Pipe := fun _ => NetResp.fail "down"

/-! ### Helper lemmas -/

lemma pairUp_length : ∀ l : List Nat, (pairUp l).length = l.length / 2
  | [] => rfl
  | [_] => by simp [pairUp]
  | _ :: _ :: rest => by
      simp only [pairUp, List.length_cons, List.length]
      rw [pairUp_length rest]
      omega

lemma trimOdd_length (b : List Nat) : (trimOdd b).length = 2 * (b.length / 2) := by
  unfold trimOdd
  split
  · rw [List.length_take]
    omega
  · omega

lemma trimOdd_of_even (l : List Nat) (h : l.length % 2 = 0) : trimOdd l = l := by
  unfold trimOdd
  rw [if_neg (by omega)]

lemma trimOdd_trimOdd (b : List Nat) : trimOdd (trimOdd b) = trimOdd b :=
  trimOdd_of_even _ (by rw [trimOdd_length]; omega)

lemma int16OfBytes_bounds (lo hi : Nat) :
    -32768 ≤ int16OfBytes lo hi ∧ int16OfBytes lo hi ≤ 32767 := by
  unfold int16OfBytes
  have h : (lo % 256 + 256 * (hi % 256)) % 65536 < 65536 :=
    Nat.mod_lt _ (by norm_num)
  constructor
  · split <;> omega
  · split <;> omega

lemma sample_bounds (i : Int) (h1 : -32768 ≤ i) (h2 : i ≤ 32767) :
    (-1 : ℚ) ≤ (i : ℚ) / 32768 ∧ ((i : ℚ) / 32768) ≤ 1 := by
  have h32 : (0 : ℚ) < 32768 := by norm_num
  constructor
  · rw [le_div_iff₀ h32]
    have : (-32768 : ℚ) ≤ (i : ℚ) := by exact_mod_cast h1
    linarith
  · rw [div_le_one h32]
    have : (i : ℚ) ≤ 32767 := by exact_mod_cast h2
    linarith

lemma lookupKey_setKey (c : List (String × Nat)) (k : String) (v : Nat) :
    lookupKey (setKey c k v) k = some v := by
  simp [setKey, lookupKey]

lemma removeKey_cons_self (k : String) (v : Nat) (rest : List (String × Nat)) :
    removeKey ((k, v) :: rest) k = removeKey rest k := by
  simp [removeKey]

lemma lookupKey_removeKey (c : List (String × Nat)) (k : String) :
    lookupKey (removeKey c k) k = none := by
  induction c with
  | nil => rfl
  | cons p rest ih =>
    by_cases h : p.1 = k
    · rw [show removeKey (p :: rest) k = removeKey rest k from by
        simp [removeKey, List.filter_cons, h]]
      exact ih
    · rw [show removeKey (p :: rest) k = p :: removeKey rest k from by
        simp [removeKey, List.filter_cons, h]]
      simp [lookupKey, h]
      exact ih

lemma removeKey_setKey (c : List (String × Nat)) (k : String) (v : Nat) :
    removeKey (setKey c k v) k = removeKey c k := by
  rw [setKey, removeKey_cons_self]
  induction c with
  | nil => rfl
  | cons p rest ih =>
    by_cases h : p.1 = k <;>
      simp [removeKey, List.filter_cons, h] at ih ⊢

lemma ne_empty_of_not_blank {text : String} (ht : isBlank text = false) :
    text ≠ "" := by
  intro h
  rw [h] at ht
  simp [isBlank] at ht

/-- A second `getTTSBuffer` call right after a first one for the same key
hits the entry the first call stored (or hit) and changes nothing. -/
lemma getTTSBuffer_idem (σ : St) (text lang : String) :
    getTTSBuffer (getTTSBuffer σ text lang).1 text lang = getTTSBuffer σ text lang := by
  cases h : lookupKey σ.cache (cacheKeyOf text lang) with
  | some pid => simp [getTTSBuffer, h]
  | none => simp [getTTSBuffer, h, lookupKey_setKey]

lemma getTTSBuffer_pair (σ : St) (text lang : String) :
    getTTSBuffer (getTTSBuffer σ text lang).1 text lang
      = ((getTTSBuffer σ text lang).1, (getTTSBuffer σ text lang).2) :=
  (getTTSBuffer_idem σ text lang).trans Prod.mk.eta.symm

lemma getTTSBuffer_promises_le (σ : St) (text lang : String) :
    (getTTSBuffer σ text lang).1.promises.length ≤ σ.promises.length + 1 := by
  cases h : lookupKey σ.cache (cacheKeyOf text lang) with
  | some pid => simp [getTTSBuffer, h]
  | none =>
    by_cases ht : isBlank text <;>
      simp [getTTSBuffer, h, fetchAndDecodeTTSStart, ht]

lemma getTTSBuffer_nextNet_le (σ : St) (text lang : String) :
    (getTTSBuffer σ text lang).1.nextNet ≤ σ.nextNet + 1 := by
  cases h : lookupKey σ.cache (cacheKeyOf text lang) with
  | some pid => simp [getTTSBuffer, h]
  | none =>
    by_cases ht : isBlank text <;>
      simp [getTTSBuffer, h, fetchAndDecodeTTSStart, ht]

/-- A cache miss with speakable text: the new entry is stored under the key
and one fresh synthesis request is issued. -/
lemma getTTSBuffer_miss (σ : St) (text lang : String)
    (hmiss : lookupKey σ.cache (cacheKeyOf text lang) = none)
    (ht : isBlank text = false) :
    getTTSBuffer σ text lang =
      ({ σ with nextNet := σ.nextNet + 1
                promises := σ.promises ++ [⟨cacheKeyOf text lang, PKind.net σ.nextNet⟩]
                cache := setKey σ.cache (cacheKeyOf text lang) σ.promises.length },
       σ.promises.length) := by
  simp [getTTSBuffer, hmiss, fetchAndDecodeTTSStart, ht]

/-- Awaiting any stored promise yields a resolution, never a rejection: the
`.catch` of lines 311-315 has already converted every failure to `null`. -/
lemma awaitTTS_ok (pipe : Pipe) (σ : St) (pid : Nat) :
    ∃ v, (awaitTTS pipe σ pid).2 = Except.ok v := by
  unfold awaitTTS
  cases h : σ.promises[pid]? with
  | none => exact ⟨none, rfl⟩
  | some p =>
    by_cases hs : pid ∈ σ.settledPids
    · cases hr : rawOutcome pipe p <;> simp [hs, catchToNull, hr]
    · cases hr : rawOutcome pipe p <;> simp [hs, hr]

/-- First settlement of a failing promise: the `.catch` handler of lines
311-315 runs once, appending exactly one `ttsCache.delete` and evicting the
key. -/
lemma awaitTTS_fresh_fail (pipe : Pipe) (σ : St) (pid : Nat) (p : PInfo) (e : String)
    (hp : σ.promises[pid]? = some p) (hs : pid ∉ σ.settledPids)
    (he : rawOutcome pipe p = Except.error e) :
    awaitTTS pipe σ pid =
      ({ σ with settledPids := pid :: σ.settledPids
                deletes := σ.deletes ++ [p.key]
                cache := removeKey σ.cache p.key
                failures := σ.failures + 1 }, Except.ok none) := by
  unfold awaitTTS
  rw [hp]
  simp [hs, he]

/-- `playTTS` always completes with `Except.ok`: every branch of its body
produces a resolution, given that awaited cache promises never reject. -/
lemma playTTS_ok (pipe : Pipe) (σ : St) (text lang : String) :
    ∃ σ', playTTS pipe σ text lang = Except.ok σ' := by
  unfold playTTS
  split
  · exact ⟨σ, rfl⟩
  · dsimp only
    obtain ⟨v, hv⟩ := awaitTTS_ok pipe (getTTSBuffer (resumeAudioContext σ) text lang).1
      (getTTSBuffer (resumeAudioContext σ) text lang).2
    rw [hv]
    cases v with
    | some buf => exact ⟨_, rfl⟩
    | none =>
      obtain ⟨w, hw⟩ := awaitTTS_ok pipe _ _
      rw [hw]
      cases w with
      | some buf => exact ⟨_, rfl⟩
      | none => exact ⟨_, rfl⟩

/-- A prefetch together with the later settlement of its computation never
surfaces a rejection to the outer fire-and-forget catch. -/
lemma prefetchAndSettle_ok (pipe : Pipe) (σ : St) (text lang : String) :
    (prefetchAndSettle pipe σ text lang).2 = Except.ok () := by
  unfold prefetchAndSettle
  split
  · rfl
  · dsimp only
    obtain ⟨v, hv⟩ := awaitTTS_ok pipe (getTTSBuffer σ text lang).1
      (getTTSBuffer σ text lang).2
    rw [hv]

/-- Once `getTTSBuffer` maps a state to itself (the key is populated), any
number of further same-key callers observe the same promise and state. -/
lemma getMany_fix (text lang : String) (σ : St) (p : Nat)
    (h : getTTSBuffer σ text lang = (σ, p)) :
    ∀ n, getMany text lang σ n = (σ, List.replicate n p)
  | 0 => rfl
  | n + 1 => by
      simp [getMany, h, getMany_fix text lang σ p h n, List.replicate_succ]

/-! ### The claims -/

/-- C1: for any set of concurrent callers (`playTTS` or `prefetchTTS`, both of
which enter the cache through an atomic `getTTSBuffer` step) using the same
cache key, while the entry is live (no settlement or eviction interleaved)
the `fetchAndDecodeTTS` pipeline is started at most once — the first caller's
step adds at most one computation and at most one synthesis request, and
every later caller joins with the state unchanged — and all callers get the
same promise, hence observe the same eventual outcome (the same buffer
identity, or all `null` together). -/
theorem dedup_single_flight (pipe : Pipe) (σ : St) (text lang : String)
    (n : Nat) (hn : 1 ≤ n) :
    (getMany text lang σ n).2 = List.replicate n (getTTSBuffer σ text lang).2 ∧
    (getMany text lang σ n).1 = (getTTSBuffer σ text lang).1 ∧
    (getTTSBuffer σ text lang).1.promises.length ≤ σ.promises.length + 1 ∧
    (getTTSBuffer σ text lang).1.nextNet ≤ σ.nextNet + 1 ∧
    (getMany text lang σ n).2.map
        (fun pid => (awaitTTS pipe (getMany text lang σ n).1 pid).2) =
      List.replicate n
        ((awaitTTS pipe (getTTSBuffer σ text lang).1 (getTTSBuffer σ text lang).2).2) := by
  obtain ⟨m, rfl⟩ : ∃ m, n = m + 1 := ⟨n - 1, by omega⟩
  have hfix := getMany_fix text lang (getTTSBuffer σ text lang).1
    (getTTSBuffer σ text lang).2 (getTTSBuffer_pair σ text lang) m
  have h2 : (getMany text lang σ (m + 1)).2 =
      List.replicate (m + 1) (getTTSBuffer σ text lang).2 := by
    simp [getMany, hfix, List.replicate_succ]
  have h1 : (getMany text lang σ (m + 1)).1 = (getTTSBuffer σ text lang).1 := by
    simp [getMany, hfix]
  refine ⟨h2, h1, getTTSBuffer_promises_le σ text lang,
    getTTSBuffer_nextNet_le σ text lang, ?_⟩
  rw [h2, h1, List.map_replicate]

/-- C1 witness: three concurrent callers for the key `en:hi` from the fresh
state. -/
theorem dedup_single_flight_witness :
    1 ≤ 3 ∧
    (getMany "hi" "en" st0 3).2 = List.replicate 3 (getTTSBuffer st0 "hi" "en").2 :=
  ⟨by decide, (dedup_single_flight pipeFailAll st0 "hi" "en" 3 (by decide)).1⟩

/-- C2: with a pipeline that fails on its first invocation for the key and
succeeds on its second, a single `playTTS` call invokes the pipeline exactly
twice (two computations, two synthesis requests), plays audio exactly once,
and completes normally; with a pipeline that fails twice, the second failure
is final: the call completes without playing, without raising, and with no
further attempt. -/
theorem playNow_single_retry (pipe pipe2 : Pipe) (text lang : String)
    (bytes : List Nat) (e1 e2 e3 : String)
    (ht : isBlank text = false)
    (h0 : pipe 0 = NetResp.fail e1) (h1 : pipe 1 = NetResp.audio bytes)
    (g0 : pipe2 0 = NetResp.fail e2) (g1 : pipe2 1 = NetResp.fail e3) :
    ((obsSt (playTTS pipe st0 text lang)).map St.plays = some [decodePCMBuffer bytes] ∧
     (obsSt (playTTS pipe st0 text lang)).map St.nextNet = some 2 ∧
     (obsSt (playTTS pipe st0 text lang)).map (fun σ => σ.promises.length) = some 2) ∧
    ((obsSt (playTTS pipe2 st0 text lang)).map St.plays = some [] ∧
     (obsSt (playTTS pipe2 st0 text lang)).map St.nextNet = some 2 ∧
     (obsSt (playTTS pipe2 st0 text lang)).map (fun σ => σ.promises.length) = some 2) := by
  have htext : text ≠ "" := ne_empty_of_not_blank ht
  constructor
  · simp [playTTS, getTTSBuffer, fetchAndDecodeTTSStart, awaitTTS, rawOutcome,
      lookupKey, setKey, removeKey, resumeAudioContext, playBuffer, st0, obsSt,
      htext, ht, h0, h1]
  · simp [playTTS, getTTSBuffer, fetchAndDecodeTTSStart, awaitTTS, rawOutcome,
      lookupKey, setKey, removeKey, resumeAudioContext, playBuffer, st0, obsSt,
      htext, ht, g0, g1]

/-- C2 witness: a concrete fail-then-succeed pipeline and a concrete
always-failing pipeline for the key `en:hi`. -/
theorem playNow_single_retry_witness :
    isBlank "hi" = false ∧
    (obsSt (playTTS pipeRetry st0 "hi" "en")).map St.plays =
      some [decodePCMBuffer []] :=
  ⟨by decide,
   (playNow_single_retry pipeRetry pipeFailAll "hi" "en" [] "network" "down" "down"
      (by decide) rfl rfl rfl rfl).1.1⟩

/-- C3 counterexample: the claim says `ttsCache.delete` is called exactly
once per failed computation, but in a `playTTS` call whose first attempt
fails the key is deleted twice — once by the `.catch` handler and once again
by the orchestrator's retry path — for a single observed failure. -/
theorem evict_exactly_once_refuted :
    (obsSt (playTTS pipeRetry st0 "hola" "es")).map St.failures = some 1 ∧
    (obsSt (playTTS pipeRetry st0 "hola" "es")).map St.deletes =
      some ["es:hola", "es:hola"] := by
  decide

/-- C3 amended: for every failed computation the `.catch` handler performs
exactly one `ttsCache.delete` of the entry's key, after the failure is
observed, and the key is then absent from the cache, so a later same-key
call issues a brand-new pipeline invocation; but `playTTS`'s retry path may
issue one additional, redundant delete of the already-evicted key, so the
total number of delete calls for one failed computation can be two. -/
theorem evict_on_failure_amended (pipe : Pipe) (σ : St) (pid : Nat) (p : PInfo)
    (e : String) (hp : σ.promises[pid]? = some p) (hs : pid ∉ σ.settledPids)
    (he : rawOutcome pipe p = Except.error e) :
    (awaitTTS pipe σ pid).1.deletes = σ.deletes ++ [p.key] ∧
    (awaitTTS pipe σ pid).1.failures = σ.failures + 1 ∧
    lookupKey (awaitTTS pipe σ pid).1.cache p.key = none ∧
    (∀ text lang, cacheKeyOf text lang = p.key → isBlank text = false →
      (getTTSBuffer (awaitTTS pipe σ pid).1 text lang).1.nextNet = σ.nextNet + 1 ∧
      (getTTSBuffer (awaitTTS pipe σ pid).1 text lang).1.promises.length
        = σ.promises.length + 1) := by
  have ha := awaitTTS_fresh_fail pipe σ pid p e hp hs he
  refine ⟨by simp [ha], by simp [ha], by simp [ha, lookupKey_removeKey], ?_⟩
  intro text lang hkey ht
  have hmiss : lookupKey (awaitTTS pipe σ pid).1.cache (cacheKeyOf text lang) = none := by
    rw [hkey]
    simp [ha, lookupKey_removeKey]
  have hr := getTTSBuffer_miss (awaitTTS pipe σ pid).1 text lang hmiss ht
  simp only [ha] at hr ⊢
  constructor <;> simp [hr]

/-- C3 amended witness: one failing promise for the key `en:hi`, settled from
a state where it is fresh. -/
theorem evict_on_failure_amended_witness :
    (awaitTTS pipeFailAll ⟨[("en:hi", 0)], [⟨"en:hi", PKind.net 0⟩], 1, [], [], 0, 0, []⟩
      0).1.deletes = ["en:hi"] := by
  have h := (evict_on_failure_amended pipeFailAll
    ⟨[("en:hi", 0)], [⟨"en:hi", PKind.net 0⟩], 1, [], [], 0, 0, []⟩
    0 ⟨"en:hi", PKind.net 0⟩ "down" rfl (by decide) rfl).1
  simpa using h

/-- C4: neither `playTTS` nor `prefetchTTS` ever throws or rejects to its
caller — `playTTS` always completes with `Except.ok`, and the settlement of
a prefetched computation never reaches the outer fire-and-forget catch —
and a prefetch whose pipeline always fails completes without throwing and
without altering caller-observable state (nothing played, device untouched,
and the key it created is evicted again). -/
theorem public_api_absorbs_failures (pipe : Pipe) (σ : St) (text lang : String) :
    (∃ σ', playTTS pipe σ text lang = Except.ok σ') ∧
    (prefetchAndSettle pipe σ text lang).2 = Except.ok () ∧
    (isBlank text = false → WFst σ →
      lookupKey σ.cache (cacheKeyOf text lang) = none →
      (∀ k bytes, pipe k ≠ NetResp.audio bytes) →
      ((prefetchAndSettle pipe σ text lang).1.plays = σ.plays ∧
       (prefetchAndSettle pipe σ text lang).1.resumes = σ.resumes ∧
       lookupKey (prefetchAndSettle pipe σ text lang).1.cache
         (cacheKeyOf text lang) = none)) := by
  refine ⟨playTTS_ok pipe σ text lang, prefetchAndSettle_ok pipe σ text lang, ?_⟩
  intro ht hwf hmiss halways
  have htext : text ≠ "" := ne_empty_of_not_blank ht
  have hr := getTTSBuffer_miss σ text lang hmiss ht
  have hsn : σ.promises.length ∉ σ.settledPids := fun hmem =>
    absurd (hwf _ hmem) (by omega)
  obtain ⟨e, he⟩ : ∃ e, rawOutcome pipe
      ⟨cacheKeyOf text lang, PKind.net σ.nextNet⟩ = Except.error e := by
    cases hk : pipe σ.nextNet with
    | fail e => exact ⟨e, by simp [rawOutcome, hk]⟩
    | noAudio =>
      exact ⟨"No audio data received from Gemini", by simp [rawOutcome, hk]⟩
    | audio bytes => exact absurd hk (halways _ _)
  have ha := awaitTTS_fresh_fail pipe
    ({ σ with nextNet := σ.nextNet + 1
              promises := σ.promises ++ [⟨cacheKeyOf text lang, PKind.net σ.nextNet⟩]
              cache := setKey σ.cache (cacheKeyOf text lang) σ.promises.length })
    σ.promises.length ⟨cacheKeyOf text lang, PKind.net σ.nextNet⟩ e
    (by simp) (by simpa using hsn) he
  refine ⟨?_, ?_, ?_⟩ <;>
    simp [prefetchAndSettle, htext, hr, ha, removeKey_setKey, lookupKey_removeKey]

/-- C4 witness: an always-failing pipeline prefetched for the key `en:hi`
from the fresh state. -/
theorem public_api_absorbs_failures_witness :
    (prefetchAndSettle pipeFailAll st0 "hi" "en").1.plays = st0.plays :=
  ((public_api_absorbs_failures pipeFailAll st0 "hi" "en").2.2 (by decide)
    (fun q hq => absurd hq (List.not_mem_nil q)) rfl
    (fun k bytes h => NetResp.noConfusion h)).1

/-- C5: decoding reinterprets the base64-decoded bytes as signed 16-bit
little-endian samples and converts each to floating point by dividing by
32768; in particular the byte sequence `[0x00, 0x80, 0xFF, 0x7F]` (samples
-32768 and 32767) decodes to exactly `-1` and `32767 / 32768`. -/
theorem decode_int16le_correct :
    decodePCMBuffer [0x00, 0x80, 0xFF, 0x7F] =
      { numberOfChannels := 1, sampleRate := 24000, data := [-1, 32767 / 32768] } ∧
    ∀ bytes : List Nat, (decodePCMBuffer bytes).data =
      (pairUp (trimOdd bytes)).map (fun p => ((int16OfBytes p.1 p.2 : ℚ) / 32768)) := by
  constructor
  · simp [decodePCMBuffer, trimOdd, pairUp, int16OfBytes]
    norm_num
  · intro bytes
    rfl

/-- C6: decode succeeds for every byte payload regardless of parity — an odd
trailing byte is dropped rather than causing a failure (decoding a payload
equals decoding its trimmed even-length prefix) and the sample count is the
byte count divided by two, rounded down. -/
theorem decode_odd_length_tolerated (bytes : List Nat) :
    (decodePCMBuffer bytes).data.length = bytes.length / 2 ∧
    decodePCMBuffer bytes = decodePCMBuffer (trimOdd bytes) := by
  constructor
  · simp only [decodePCMBuffer, List.length_map]
    rw [pairUp_length, trimOdd_length]
    omega
  · unfold decodePCMBuffer
    rw [trimOdd_trimOdd]

/-- C7: every decoded `SampleBuffer` is mono (1 channel) at 24,000 Hz and all
its samples lie in the closed range from -1 to 1. -/
theorem samplebuffer_invariants (bytes : List Nat) :
    (decodePCMBuffer bytes).numberOfChannels = 1 ∧
    (decodePCMBuffer bytes).sampleRate = 24000 ∧
    ∀ s ∈ (decodePCMBuffer bytes).data, -1 ≤ s ∧ s ≤ 1 := by
  refine ⟨rfl, rfl, ?_⟩
  intro s hs
  simp only [decodePCMBuffer, List.mem_map] at hs
  obtain ⟨p, hp, hv⟩ := hs
  rw [← hv]
  exact sample_bounds _ (int16OfBytes_bounds p.1 p.2).1 (int16OfBytes_bounds p.1 p.2).2

/-- C7 witness: the two-byte payload `[0, 0]` decodes to the single sample 0,
which lies in range. -/
theorem samplebuffer_invariants_witness :
    (decodePCMBuffer [0, 0]).numberOfChannels = 1 ∧
    ((-1 : ℚ) ≤ 0 ∧ (0 : ℚ) ≤ 1) :=
  ⟨(samplebuffer_invariants [0, 0]).1,
   (samplebuffer_invariants [0, 0]).2.2 0
     (by norm_num [decodePCMBuffer, trimOdd, pairUp, int16OfBytes])⟩

/-- C8: for every language, `playTTS` and `prefetchTTS` with empty text
return immediately with the whole state unchanged: no network call, cache
and audio device untouched. -/
theorem empty_text_noop (pipe : Pipe) (σ : St) (lang : String) :
    playTTS pipe σ "" lang = Except.ok σ ∧ prefetchTTS σ "" lang = (σ, none) :=
  ⟨rfl, rfl⟩

/-- C9 counterexample: the claim says the pipeline's empty-text no-op branch
is unreachable from the public interface, but `playTTS " " "en"` passes the
callers' `!text` guard and creates two `fetchAndDecodeTTS` computations that
both take the empty-after-trimming no-op branch (`nullNow`), issuing no
synthesis request. -/
theorem blank_text_reaches_pipeline :
    (obsSt (playTTS pipeFailAll st0 " " "en")).map St.promises =
      some [⟨cacheKeyOf " " "en", PKind.nullNow⟩, ⟨cacheKeyOf " " "en", PKind.nullNow⟩] ∧
    (obsSt (playTTS pipeFailAll st0 " " "en")).map St.nextNet = some 0 := by
  decide

/-- C9 amended: the public entry points guard only the strictly empty string
— with `text = ""` neither `playTTS` nor `prefetchTTS` invokes the pipeline
at all — but whitespace-only text passes that guard and reaches the
pipeline, where it takes the empty-after-trimming no-op branch: a `nullNow`
computation is stored and no synthesis request is issued. -/
theorem empty_guard_amended (pipe : Pipe) (σ : St) (text lang : String) :
    (playTTS pipe σ "" lang = Except.ok σ ∧ prefetchTTS σ "" lang = (σ, none)) ∧
    (text ≠ "" → isBlank text = true →
      lookupKey σ.cache (cacheKeyOf text lang) = none →
      (getTTSBuffer σ text lang).1.promises
          = σ.promises ++ [⟨cacheKeyOf text lang, PKind.nullNow⟩] ∧
      (getTTSBuffer σ text lang).1.nextNet = σ.nextNet) := by
  refine ⟨⟨rfl, rfl⟩, ?_⟩
  intro _ ht hmiss
  constructor <;> simp [getTTSBuffer, hmiss, fetchAndDecodeTTSStart, ht]

/-- C9 amended witness: the whitespace-only text `" "` passes the guard and
stores a `nullNow` computation. -/
theorem empty_guard_amended_witness :
    (" " ≠ "" ∧ isBlank " " = true) ∧
    (getTTSBuffer st0 " " "en").1.promises =
      st0.promises ++ [⟨cacheKeyOf " " "en", PKind.nullNow⟩] :=
  ⟨⟨by decide, by decide⟩,
   ((empty_guard_amended pipeFailAll st0 " " "en").2 (by decide) (by decide) rfl).1⟩

/-- C10: awaiting the promise `getTTSBuffer` stores never yields a rejection
— every outcome is a resolution with a buffer or `null` — every pipeline
error (transport failure, missing audio payload, invalid base64) resolves to
`null`, and the empty-text no-op also resolves to `null`, so a `null`
outcome does not distinguish a failure from the no-op success. -/
theorem cached_promise_never_rejects (pipe : Pipe) (σ : St) (pid : Nat) :
    (∃ v, (awaitTTS pipe σ pid).2 = Except.ok v) ∧
    (∀ p e, σ.promises[pid]? = some p → rawOutcome pipe p = Except.error e →
      (awaitTTS pipe σ pid).2 = Except.ok none) ∧
    (∀ p, σ.promises[pid]? = some p → p.kind = PKind.nullNow →
      (awaitTTS pipe σ pid).2 = Except.ok none) := by
  refine ⟨awaitTTS_ok pipe σ pid, ?_, ?_⟩
  · intro p e hp he
    unfold awaitTTS
    rw [hp]
    by_cases hs : pid ∈ σ.settledPids
    · simp [hs, he, catchToNull]
    · simp [hs, he]
  · intro p hp hk
    have hraw : rawOutcome pipe p = Except.ok none := by
      simp [rawOutcome, hk]
    unfold awaitTTS
    rw [hp]
    by_cases hs : pid ∈ σ.settledPids <;> simp [hs, hraw, catchToNull]

/-- C10 witness: a failing net promise and an empty-text promise both resolve
to `null`. -/
theorem cached_promise_never_rejects_witness :
    (awaitTTS pipeFailAll
      ⟨[], [⟨"en:x", PKind.net 0⟩, ⟨"en: ", PKind.nullNow⟩], 1, [], [], 0, 0, []⟩
      0).2 = Except.ok none ∧
    (awaitTTS pipeFailAll
      ⟨[], [⟨"en:x", PKind.net 0⟩, ⟨"en: ", PKind.nullNow⟩], 1, [], [], 0, 0, []⟩
      1).2 = Except.ok none :=
  ⟨(cached_promise_never_rejects pipeFailAll
      ⟨[], [⟨"en:x", PKind.net 0⟩, ⟨"en: ", PKind.nullNow⟩], 1, [], [], 0, 0, []⟩
      0).2.1 ⟨"en:x", PKind.net 0⟩ "down" rfl rfl,
   (cached_promise_never_rejects pipeFailAll
      ⟨[], [⟨"en:x", PKind.net 0⟩, ⟨"en: ", PKind.nullNow⟩], 1, [], [], 0, 0, []⟩
      1).2.2 ⟨"en: ", PKind.nullNow⟩ rfl rfl⟩

end TTS
